import Mathlib

/-!
Shallow embedding of the Gmail/Notion agent API route
(Next.js route handler: requestSchema, gmailEnvSchema, notionEnvSchema,
getGmailClient, getNotionClient, POST, handleListMessages,
handleSendMessage, handleListPages, handleCreatePage).

External collaborators (the Gmail SDK, the Notion SDK, the network) are
modelled as an oracle (`World`); each handler additionally returns the
trace of client constructions and network calls it performed, so that
"fails before any network call" is expressible.
-/

set_option autoImplicit false

namespace Agent

/-- JSON values, as produced by `request.json()`.  Numbers are modelled as
rationals so that the zod `.int()` check (`q.den = 1`) is meaningful. -/
inductive Json where
  | null : Json
  | bool (b : Bool) : Json
  | num (q : Rat) : Json
  | str (s : String) : Json
  | arr (items : List Json) : Json
  | obj (fields : List (String × Json)) : Json

/-- Key lookup in a JSON object.  `JSON.parse` keeps the LAST occurrence of a
duplicated key, so lookup prefers later entries. -/
def lookupField : List (String × Json) → String → Option Json
  | [], _ => none
  | (k', v) :: rest, k =>
    match lookupField rest k with
    | some r => some r
    | none => if k' = k then some v else none

def getField : Json → String → Option Json
  | Json.obj fields, k => lookupField fields k
  | _, _ => none

/-- One zod validation issue: the path of the offending field and a message. -/
structure ZodIssue where
  path : List String
  message : String
deriving DecidableEq

/-- The four recognized action tags of `requestSchema` (a zod enum). -/
inductive ActionTag where
  | gmailListMessages
  | gmailSendMessage
  | notionListPages
  | notionCreatePage
deriving DecidableEq

def tagOfString : String → Option ActionTag
  | "gmail.listMessages" => some ActionTag.gmailListMessages
  | "gmail.sendMessage" => some ActionTag.gmailSendMessage
  | "notion.listPages" => some ActionTag.notionListPages
  | "notion.createPage" => some ActionTag.notionCreatePage
  | _ => none

structure ActionRequest where
  action : ActionTag
  payload : Option Json

/-- `requestSchema.parse(body)`: body must be an object, `action` must be one
of the four enum strings, `payload` (optional) must be a record (any object).
Unknown keys are stripped; issues of both fields are collected. -/
def parseRequest (body : Json) : Except (List ZodIssue) ActionRequest :=
  match body with
  | Json.obj fields =>
    let aRes : Except ZodIssue ActionTag :=
      match lookupField fields "action" with
      | none => Except.error ⟨["action"], "Required"⟩
      | some (Json.str s) =>
        match tagOfString s with
        | some t => Except.ok t
        | none => Except.error ⟨["action"], "Invalid enum value"⟩
      | some _ => Except.error ⟨["action"], "Expected string"⟩
    let pRes : Except ZodIssue (Option Json) :=
      match lookupField fields "payload" with
      | none => Except.ok none
      | some (Json.obj pf) => Except.ok (some (Json.obj pf))
      | some _ => Except.error ⟨["payload"], "Expected object"⟩
    match aRes, pRes with
    | Except.ok a, Except.ok p => Except.ok ⟨a, p⟩
    | Except.error i, Except.ok _ => Except.error [i]
    | Except.ok _, Except.error j => Except.error [j]
    | Except.error i, Except.error j => Except.error [i, j]
  | _ => Except.error [⟨[], "Expected object"⟩]

/-- Process environment: the seven variables the route reads, each possibly
unset. -/
structure Env where
  GOOGLE_CLIENT_ID : Option String
  GOOGLE_CLIENT_SECRET : Option String
  GOOGLE_REFRESH_TOKEN : Option String
  GOOGLE_REDIRECT_URI : Option String
  NOTION_API_KEY : Option String
  NOTION_DATABASE_ID : Option String
  NOTION_DATA_SOURCE_ID : Option String

/-- `z.string().min(1)` on an environment variable: present and non-empty. -/
def presentNonEmpty : Option String → Bool
  | some s => !s.isEmpty
  | none => false

/-- `gmailEnvSchema.safeParse(process.env).success`. -/
def gmailEnvOk (env : Env) : Bool :=
  presentNonEmpty env.GOOGLE_CLIENT_ID &&
  presentNonEmpty env.GOOGLE_CLIENT_SECRET &&
  presentNonEmpty env.GOOGLE_REFRESH_TOKEN &&
  presentNonEmpty env.GOOGLE_REDIRECT_URI

/-- The descriptive error thrown by `getGmailClient` when the Gmail env
variables are missing (a plain Error, not a ZodError). -/
def gmailConfigMsg : String :=
  "Missing required Gmail environment variables. Ensure GOOGLE_CLIENT_ID, GOOGLE_CLIENT_SECRET, GOOGLE_REFRESH_TOKEN, and GOOGLE_REDIRECT_URI are set."

structure NotionEnv where
  apiKey : String
  databaseId : String
  dataSourceId : String
deriving DecidableEq

def parseEnvVar (v : Option String) (key : String) : Except ZodIssue String :=
  match v with
  | none => Except.error ⟨[key], "Required"⟩
  | some s =>
    if s.isEmpty then Except.error ⟨[key], "String must contain at least 1 character(s)"⟩
    else Except.ok s

def issuesOfStr : Except ZodIssue String → List ZodIssue
  | Except.error i => [i]
  | Except.ok _ => []

/-- `notionEnvSchema.parse(process.env)`: throws a ZodError (not a plain
Error) when a Notion variable is absent or empty. -/
def notionEnvParse (env : Env) : Except (List ZodIssue) NotionEnv :=
  let r1 := parseEnvVar env.NOTION_API_KEY "NOTION_API_KEY"
  let r2 := parseEnvVar env.NOTION_DATABASE_ID "NOTION_DATABASE_ID"
  let r3 := parseEnvVar env.NOTION_DATA_SOURCE_ID "NOTION_DATA_SOURCE_ID"
  match r1, r2, r3 with
  | Except.ok a, Except.ok b, Except.ok c => Except.ok ⟨a, b, c⟩
  | _, _, _ => Except.error (issuesOfStr r1 ++ issuesOfStr r2 ++ issuesOfStr r3)

/-! ### Per-action payload schemas (zod) -/

structure ListMessagesParams where
  maxResults : Option Int
  labelIds : Option (List String)
  includeSpamTrash : Option Bool

structure SendMessageParams where
  toAddr : String
  subject : String
  body : String

structure ListPagesParams where
  pageSize : Option Int
  filterProperty : Option String
  filterValue : Option String

structure CreatePageParams where
  title : String
  content : String

/-- `z.number().int().positive().max(20).optional()` (used for both
`maxResults` and `pageSize`). -/
def parseMaxResults (v : Option Json) (key : String) : Except ZodIssue (Option Int) :=
  match v with
  | none => Except.ok none
  | some (Json.num q) =>
    if q.den = 1 then
      if 0 < q.num then
        if q.num ≤ 20 then Except.ok (some q.num)
        else Except.error ⟨[key], "Number must be less than or equal to 20"⟩
      else Except.error ⟨[key], "Number must be greater than 0"⟩
    else Except.error ⟨[key], "Expected integer, received float"⟩
  | some _ => Except.error ⟨[key], "Expected number, received other"⟩

/-- `z.string().optional()`. -/
def parseOptString (v : Option Json) (key : String) : Except ZodIssue (Option String) :=
  match v with
  | none => Except.ok none
  | some (Json.str s) => Except.ok (some s)
  | some _ => Except.error ⟨[key], "Expected string, received other"⟩

/-- `z.boolean().optional()`. -/
def parseOptBool (v : Option Json) (key : String) : Except ZodIssue (Option Bool) :=
  match v with
  | none => Except.ok none
  | some (Json.bool b) => Except.ok (some b)
  | some _ => Except.error ⟨[key], "Expected boolean, received other"⟩

def allStrings : List Json → Option (List String)
  | [] => some []
  | Json.str s :: rest => (allStrings rest).map (fun l => s :: l)
  | _ => none

/-- `z.array(z.string()).optional()`. -/
def parseLabelIds (v : Option Json) : Except ZodIssue (Option (List String)) :=
  match v with
  | none => Except.ok none
  | some (Json.arr items) =>
    match allStrings items with
    | some ss => Except.ok (some ss)
    | none => Except.error ⟨["labelIds"], "Expected string, received other"⟩
  | some _ => Except.error ⟨["labelIds"], "Expected array, received other"⟩

/-- `z.string().min(1)` for a required payload field. -/
def parseReqString (v : Option Json) (key : String) : Except ZodIssue String :=
  match v with
  | none => Except.error ⟨[key], "Required"⟩
  | some (Json.str s) =>
    if s.isEmpty then Except.error ⟨[key], "String must contain at least 1 character(s)"⟩
    else Except.ok s
  | some _ => Except.error ⟨[key], "Expected string, received other"⟩

/-! ### Email syntax (zod `z.string().email()`)

Modelled from zod v3's email regular expression, an external library:
local part of characters A-Za-z0-9 _ apostrophe + - dot, not starting with a
dot, no two consecutive dots anywhere, last local character not a dot or
apostrophe; a single at-sign; domain of one or more labels (alphanumeric
first character, then alphanumeric or hyphen) separated by dots, ending in an
alphabetic top-level label of length at least 2. -/

def isAlphaNumCh (c : Char) : Bool := c.isAlpha || c.isDigit

def isLocalChar (c : Char) : Bool :=
  isAlphaNumCh c || c = '_' || c.toNat = 39 || c = '+' || c = '-' || c = '.'

def isLocalFinal (c : Char) : Bool :=
  isAlphaNumCh c || c = '_' || c = '+' || c = '-'

def hasDoubleDot : List Char → Bool
  | '.' :: '.' :: _ => true
  | _ :: rest => hasDoubleDot rest
  | [] => false

def splitOnChar (sep : Char) : List Char → List (List Char)
  | [] => [[]]
  | c :: rest =>
    let ps := splitOnChar sep rest
    if c = sep then [] :: ps
    else
      match ps with
      | p :: ps' => (c :: p) :: ps'
      | [] => [[c]]

def checkLabel (l : List Char) : Bool :=
  match l with
  | [] => false
  | c :: rest => isAlphaNumCh c && rest.all (fun d => isAlphaNumCh d || d = '-')

def checkTld (l : List Char) : Bool :=
  decide (2 ≤ l.length) && l.all Char.isAlpha

def checkDomain (l : List Char) : Bool :=
  let parts := splitOnChar '.' l
  decide (2 ≤ parts.length) && parts.dropLast.all checkLabel &&
    (match parts.getLast? with
     | some t => checkTld t
     | none => false)

def isValidEmail (s : String) : Bool :=
  let l := s.toList
  match splitOnChar '@' l with
  | [localPart, domainPart] =>
    (match localPart with
     | [] => false
     | c :: _ => !(c = '.')) &&
    !hasDoubleDot l &&
    localPart.all isLocalChar &&
    (match localPart.getLast? with
     | some c => isLocalFinal c
     | none => false) &&
    checkDomain domainPart
  | _ => false

/-- `z.string().email()` for the `to` field. -/
def parseEmail (v : Option Json) : Except ZodIssue String :=
  match v with
  | none => Except.error ⟨["to"], "Required"⟩
  | some (Json.str s) =>
    if isValidEmail s then Except.ok s else Except.error ⟨["to"], "Invalid email"⟩
  | some _ => Except.error ⟨["to"], "Expected string, received other"⟩

def issuesOfOptInt : Except ZodIssue (Option Int) → List ZodIssue
  | Except.error i => [i]
  | Except.ok _ => []

def issuesOfOptStr : Except ZodIssue (Option String) → List ZodIssue
  | Except.error i => [i]
  | Except.ok _ => []

def issuesOfOptBool : Except ZodIssue (Option Bool) → List ZodIssue
  | Except.error i => [i]
  | Except.ok _ => []

def issuesOfOptList : Except ZodIssue (Option (List String)) → List ZodIssue
  | Except.error i => [i]
  | Except.ok _ => []

/-- The listMessages payload schema; the whole object is `.optional()` and the
handler applies `?? {}`, so an absent payload yields the empty params. -/
def parseListMessagesPayload (payload : Option Json) :
    Except (List ZodIssue) ListMessagesParams :=
  match payload with
  | none => Except.ok ⟨none, none, none⟩
  | some (Json.obj fields) =>
    let r1 := parseMaxResults (lookupField fields "maxResults") "maxResults"
    let r2 := parseLabelIds (lookupField fields "labelIds")
    let r3 := parseOptBool (lookupField fields "includeSpamTrash") "includeSpamTrash"
    match r1, r2, r3 with
    | Except.ok a, Except.ok b, Except.ok c => Except.ok ⟨a, b, c⟩
    | _, _, _ =>
      Except.error (issuesOfOptInt r1 ++ issuesOfOptList r2 ++ issuesOfOptBool r3)
  | some _ => Except.error [⟨[], "Expected object"⟩]

/-- The sendMessage payload schema (`to`, `subject`, `body` all required). -/
def parseSendMessagePayload (payload : Option Json) :
    Except (List ZodIssue) SendMessageParams :=
  match payload with
  | some (Json.obj fields) =>
    let r1 := parseEmail (lookupField fields "to")
    let r2 := parseReqString (lookupField fields "subject") "subject"
    let r3 := parseReqString (lookupField fields "body") "body"
    match r1, r2, r3 with
    | Except.ok a, Except.ok b, Except.ok c => Except.ok ⟨a, b, c⟩
    | _, _, _ =>
      Except.error (issuesOfStr r1 ++ issuesOfStr r2 ++ issuesOfStr r3)
  | some _ => Except.error [⟨[], "Expected object"⟩]
  | none => Except.error [⟨[], "Required"⟩]

/-- JavaScript truthiness of `string | undefined`: defined and non-empty. -/
def truthy : Option String → Bool
  | some s => !s.isEmpty
  | none => false

/-- The listPages payload schema, including the `.refine` cross-field check
(written with JavaScript truthiness, so an empty string counts as absent);
the handler applies `payload ?? {}` before parsing. -/
def parseListPagesPayload (payload : Option Json) :
    Except (List ZodIssue) ListPagesParams :=
  match payload.getD (Json.obj []) with
  | Json.obj fields =>
    let r1 := parseMaxResults (lookupField fields "pageSize") "pageSize"
    let r2 := parseOptString (lookupField fields "filterProperty") "filterProperty"
    let r3 := parseOptString (lookupField fields "filterValue") "filterValue"
    match r1, r2, r3 with
    | Except.ok a, Except.ok b, Except.ok c =>
      if !(truthy b) || (truthy b && truthy c) then Except.ok ⟨a, b, c⟩
      else Except.error [⟨["filterValue"], "filterValue must be provided when filterProperty is set."⟩]
    | _, _, _ =>
      Except.error (issuesOfOptInt r1 ++ issuesOfOptStr r2 ++ issuesOfOptStr r3)
  | _ => Except.error [⟨[], "Expected object"⟩]

/-- The createPage payload schema (`title`, `content` required). -/
def parseCreatePagePayload (payload : Option Json) :
    Except (List ZodIssue) CreatePageParams :=
  match payload with
  | some (Json.obj fields) =>
    let r1 := parseReqString (lookupField fields "title") "title"
    let r2 := parseReqString (lookupField fields "content") "content"
    match r1, r2 with
    | Except.ok a, Except.ok b => Except.ok ⟨a, b⟩
    | _, _ => Except.error (issuesOfStr r1 ++ issuesOfStr r2)
  | some _ => Except.error [⟨[], "Expected object"⟩]
  | none => Except.error [⟨[], "Required"⟩]

/-! ### The external world (Gmail SDK, Notion SDK) -/

structure MsgRef where
  id : Option String
  threadId : Option String
deriving DecidableEq

structure Header where
  name : Option String
  value : Option String
deriving DecidableEq

/-- The slice of a `users.messages.get` response the handler reads
(`result.data.payload?.headers` collapsed to a single Option, and
`result.data.snippet`). -/
structure MsgDetail where
  headers : Option (List Header)
  snippet : Option String

structure NotionFilter where
  property : String
  containsValue : String
deriving DecidableEq

/-- The slice of a Notion query result item the handler reads. -/
structure NotionItem where
  isFull : Bool
  object : String
  id : String
  url : String
  createdTime : String
  lastEditedTime : String
  properties : Json

/-- The slice of a `pages.create` response the handler reads: `id`, and the
`url` field when present. -/
structure CreateResponse where
  id : String
  url : Option String

/-- Oracle for the external services.  Each field is one kind of network
call; arguments are exactly the data the route passes. -/
structure World where
  gmailList : Int → Option (List String) → Option Bool → Except String (Option (List MsgRef))
  gmailGet : String → Except String MsgDetail
  gmailSend : String → Except String Json
  notionQuery : String → Int → Option NotionFilter → Except String (List NotionItem)
  notionCreate : String → String → String → Except String CreateResponse

/-- Trace events: SDK client constructions and network calls. -/
inductive Effect where
  | gmailClientInit : Effect
  | notionClientInit : Effect
  | gmailList (maxResults : Int) (labelIds : Option (List String)) (includeSpamTrash : Option Bool) : Effect
  | gmailGet (id : String) : Effect
  | gmailSend (raw : String) : Effect
  | notionQuery (dataSourceId : String) (pageSize : Int) (filter : Option NotionFilter) : Effect
  | notionCreate (databaseId : String) (title : String) (content : String) : Effect
deriving DecidableEq

inductive AgentError where
  | zodErr (issues : List ZodIssue) : AgentError
  | otherErr (msg : String) : AgentError
deriving DecidableEq

/-! ### handleListMessages -/

/-- `acc[name] = value` on a JavaScript object: update in place if the key
exists, else append. -/
def setKey : List (String × Json) → String → Json → List (String × Json)
  | [], k, v => [(k, v)]
  | (k', v') :: rest, k, v =>
    if k' = k then (k, v) :: rest else (k', v') :: setKey rest k v

/-- The `headers.reduce` accumulation into a string-keyed record. -/
def headersJson (hs : List Header) : Json :=
  Json.obj (hs.foldl
    (fun acc h =>
      match h.name, h.value with
      | some n, some v => setKey acc n (Json.str v)
      | _, _ => acc)
    [])

/-- The per-message object built by the map in handleListMessages.  Keys whose
value is `undefined` (threadId, snippet) are dropped, as `NextResponse.json`
serialization drops them. -/
def detailJson (i : String) (threadId : Option String) (d : MsgDetail) : Json :=
  Json.obj ([("id", Json.str i)]
    ++ (match threadId with
        | some t => [("threadId", Json.str t)]
        | none => [])
    ++ (match d.snippet with
        | some sn => [("snippet", Json.str sn)]
        | none => [])
    ++ [("headers", headersJson (d.headers.getD []))])

/-- One arm of the `Promise.all` fan-out: `null` for a message without an id,
otherwise the detail fetch for its id. -/
def fetchResult (w : World) (m : MsgRef) : Except String (Option Json) :=
  match m.id with
  | none => Except.ok none
  | some i =>
    match w.gmailGet i with
    | Except.error msg => Except.error msg
    | Except.ok d => Except.ok (some (detailJson i m.threadId d))

/-- The detail network calls launched by the fan-out (one per message that has
an id; all are launched regardless of individual failures). -/
def gmailGetCalls (msgs : List MsgRef) : List Effect :=
  msgs.filterMap (fun m => m.id.map Effect.gmailGet)

/-- `await Promise.all` followed by `.filter(Boolean)`: the first rejection
(in listing order) fails the whole batch; otherwise nulls are dropped and
order is positional. -/
def joinResults : List (Except String (Option Json)) → Except String (List Json)
  | [] => Except.ok []
  | Except.error m :: _ => Except.error m
  | Except.ok v :: rest =>
    match joinResults rest with
    | Except.error m => Except.error m
    | Except.ok l =>
      Except.ok (match v with
                 | some j => j :: l
                 | none => l)

def handleListMessages (payload : Option Json) (env : Env) (w : World) :
    List Effect × Except AgentError Json :=
  match parseListMessagesPayload payload with
  | Except.error e => ([], Except.error (AgentError.zodErr e))
  | Except.ok params =>
    if gmailEnvOk env then
      let maxR := params.maxResults.getD 10
      match w.gmailList maxR params.labelIds params.includeSpamTrash with
      | Except.error msg =>
        ([Effect.gmailClientInit, Effect.gmailList maxR params.labelIds params.includeSpamTrash],
         Except.error (AgentError.otherErr msg))
      | Except.ok resp =>
        let msgs := resp.getD []
        let trace := Effect.gmailClientInit
          :: Effect.gmailList maxR params.labelIds params.includeSpamTrash
          :: gmailGetCalls msgs
        match joinResults (msgs.map (fetchResult w)) with
        | Except.error msg => (trace, Except.error (AgentError.otherErr msg))
        | Except.ok l => (trace, Except.ok (Json.obj [("messages", Json.arr l)]))
    else ([], Except.error (AgentError.otherErr gmailConfigMsg))

/-! ### handleSendMessage -/

/-- The five lines joined with CRLF. -/
def rawMessage (toAddr subject body : String) : String :=
  "To: " ++ toAddr ++ "\r\n" ++
  "Subject: " ++ subject ++ "\r\n" ++
  "Content-Type: text/plain; charset=\"UTF-8\"" ++ "\r\n" ++
  "\r\n" ++ body

/-- UTF-8 bytes of one character (what `Buffer.from(string)` produces). -/
def utf8Bytes (c : Char) : List Nat :=
  let n := c.toNat
  if n < 128 then [n]
  else if n < 2048 then [192 + n / 64, 128 + n % 64]
  else if n < 65536 then [224 + n / 4096, 128 + n / 64 % 64, 128 + n % 64]
  else [240 + n / 262144, 128 + n / 4096 % 64, 128 + n / 64 % 64, 128 + n % 64]

def strBytes (s : String) : List Nat :=
  s.data.flatMap utf8Bytes

def base64Chars : String :=
  "ABCDEFGHIJKLMNOPQRSTUVWXYZabcdefghijklmnopqrstuvwxyz0123456789+/"

def b64char (n : Nat) : Char :=
  base64Chars.data.getD n 'A'

/-- Standard base64 with padding (`Buffer.toString("base64")`). -/
def base64Encode : List Nat → List Char
  | [] => []
  | [a] => [b64char (a / 4), b64char (a % 4 * 16), '=', '=']
  | [a, b] => [b64char (a / 4), b64char (a % 4 * 16 + b / 16), b64char (b % 16 * 4), '=']
  | a :: b :: c :: rest =>
    b64char (a / 4) :: b64char (a % 4 * 16 + b / 16)
      :: b64char (b % 16 * 4 + c / 64) :: b64char (c % 64) :: base64Encode rest

/-- base64, then plus mapped to hyphen, slash mapped to underscore, trailing
padding stripped (the chained `.replace` calls). -/
def encodeRaw (s : String) : String :=
  let mapped := (base64Encode (strBytes s)).map
    (fun c => if c = '+' then '-' else if c = '/' then '_' else c)
  String.mk ((mapped.reverse.dropWhile (fun c => c = '=')).reverse)

def handleSendMessage (payload : Option Json) (env : Env) (w : World) :
    List Effect × Except AgentError Json :=
  match parseSendMessagePayload payload with
  | Except.error e => ([], Except.error (AgentError.zodErr e))
  | Except.ok p =>
    if gmailEnvOk env then
      let raw := encodeRaw (rawMessage p.toAddr p.subject p.body)
      match w.gmailSend raw with
      | Except.error m =>
        ([Effect.gmailClientInit, Effect.gmailSend raw], Except.error (AgentError.otherErr m))
      | Except.ok _ =>
        ([Effect.gmailClientInit, Effect.gmailSend raw],
         Except.ok (Json.obj [("status", Json.str "sent")]))
    else ([], Except.error (AgentError.otherErr gmailConfigMsg))

/-! ### handleListPages -/

/-- The selected fields of a full page object. -/
def pageJson (it : NotionItem) : Json :=
  Json.obj [("id", Json.str it.id), ("url", Json.str it.url),
            ("createdTime", Json.str it.createdTime),
            ("lastEditedTime", Json.str it.lastEditedTime),
            ("properties", it.properties)]

def handleListPages (payload : Option Json) (env : Env) (w : World) :
    List Effect × Except AgentError Json :=
  match parseListPagesPayload payload with
  | Except.error e => ([], Except.error (AgentError.zodErr e))
  | Except.ok p =>
    match notionEnvParse env with
    | Except.error e => ([], Except.error (AgentError.zodErr e))
    | Except.ok nenv =>
      let filter : Option NotionFilter :=
        match p.filterProperty, p.filterValue with
        | some fp, some fv =>
          if !fp.isEmpty && !fv.isEmpty then some ⟨fp, fv⟩ else none
        | _, _ => none
      let ps := p.pageSize.getD 10
      match w.notionQuery nenv.dataSourceId ps filter with
      | Except.error m =>
        ([Effect.notionClientInit, Effect.notionQuery nenv.dataSourceId ps filter],
         Except.error (AgentError.otherErr m))
      | Except.ok items =>
        ([Effect.notionClientInit, Effect.notionQuery nenv.dataSourceId ps filter],
         Except.ok (Json.obj [("pages", Json.arr
           ((items.filter (fun it => it.isFull && it.object == "page")).map pageJson))]))

/-! ### handleCreatePage -/

def optStr : Option String → Json
  | some s => Json.str s
  | none => Json.null

def handleCreatePage (payload : Option Json) (env : Env) (w : World) :
    List Effect × Except AgentError Json :=
  match parseCreatePagePayload payload with
  | Except.error e => ([], Except.error (AgentError.zodErr e))
  | Except.ok p =>
    match notionEnvParse env with
    | Except.error e => ([], Except.error (AgentError.zodErr e))
    | Except.ok nenv =>
      match w.notionCreate nenv.databaseId p.title p.content with
      | Except.error m =>
        ([Effect.notionClientInit, Effect.notionCreate nenv.databaseId p.title p.content],
         Except.error (AgentError.otherErr m))
      | Except.ok resp =>
        ([Effect.notionClientInit, Effect.notionCreate nenv.databaseId p.title p.content],
         Except.ok (Json.obj [("pageId", Json.str resp.id), ("url", optStr resp.url)]))

/-! ### POST -/

structure HttpResponse where
  status : Nat
  body : Json

/-- Rendering of a zod issue path (the pieces joined with dots). -/
def renderPath : List String → String
  | [] => ""
  | [p] => p
  | p :: rest => p ++ "." ++ renderPath rest

def renderIssue (i : ZodIssue) : String :=
  renderPath i.path ++ ": " ++ i.message

/-- Rendering of `ZodError.message` (real zod serializes the issue list; the
path of every issue appears in the message). -/
def renderIssues : List ZodIssue → String
  | [] => ""
  | [i] => renderIssue i
  | i :: rest => renderIssue i ++ "; " ++ renderIssues rest

/-- The `NextResponse.json(\x7berror\x7d)` envelope. -/
def errBody (msg : String) : Json :=
  Json.obj [("error", Json.str msg)]

def runAction : ActionTag → Option Json → Env → World → List Effect × Except AgentError Json
  | ActionTag.gmailListMessages => handleListMessages
  | ActionTag.gmailSendMessage => handleSendMessage
  | ActionTag.notionListPages => handleListPages
  | ActionTag.notionCreatePage => handleCreatePage

/-- The POST route handler: parse the request, dispatch, and map the outcome
to an HTTP response (ZodError to 400, any other failure to 500). -/
def POST (body : Json) (env : Env) (w : World) : List Effect × HttpResponse :=
  match parseRequest body with
  | Except.error issues => ([], ⟨400, errBody (renderIssues issues)⟩)
  | Except.ok req =>
    match runAction req.action req.payload env w with
    | (tr, Except.ok j) => (tr, ⟨200, j⟩)
    | (tr, Except.error (AgentError.zodErr issues)) => (tr, ⟨400, errBody (renderIssues issues)⟩)
    | (tr, Except.error (AgentError.otherErr m)) => (tr, ⟨500, errBody m⟩)

/-- Request body builder used throughout the theorems. -/
def mkBody (a : String) (p : Option Json) : Json :=
  Json.obj ([("action", Json.str a)]
    ++ (match p with
        | some j => [("payload", j)]
        | none => []))

/-! ### Statement-level predicates -/

/-- The string `needle` occurs (contiguously) inside the string `hay`. -/
def mentions (needle hay : String) : Prop :=
  ∃ l r, hay.data = l ++ needle.data ++ r

/-- The response is a 400 validation rejection whose error message identifies
the field `f`: some issue has path exactly `[f]`, and consequently `f`
appears in the rendered message. -/
def identifiesField (resp : HttpResponse) (f : String) : Prop :=
  resp.status = 400 ∧
  ∃ issues, resp.body = errBody (renderIssues issues) ∧
    (∃ i ∈ issues, i.path = [f]) ∧ mentions f (renderIssues issues)

/-! ### Concrete fixtures for witnesses -/

def fullEnv : Env :=
  ⟨some "cid", some "csec", some "rtok", some "ruri",
   some "nkey", some "dbid", some "dsid"⟩

def noNotionEnv : Env :=
  ⟨some "cid", some "csec", some "rtok", some "ruri", none, none, none⟩

def msgA : MsgRef := ⟨some "m1", some "t1"⟩
def msgB : MsgRef := ⟨none, some "t2"⟩
def msgC : MsgRef := ⟨some "m3", none⟩

def detailOf (i : String) : MsgDetail :=
  ⟨some [⟨some "From", some "x@y.co"⟩], some ("snip " ++ i)⟩

def okWorld : World :=
  { gmailList := fun _ _ _ => Except.ok (some [msgA, msgB, msgC])
    gmailGet := fun i => Except.ok (detailOf i)
    gmailSend := fun _ => Except.ok Json.null
    notionQuery := fun _ _ _ => Except.ok []
    notionCreate := fun _ _ _ => Except.ok ⟨"page-1", some "n.so/p1"⟩ }

def idleWorld : World :=
  { gmailList := fun _ _ _ => Except.error "net down"
    gmailGet := fun _ => Except.error "net down"
    gmailSend := fun _ => Except.error "net down"
    notionQuery := fun _ _ _ => Except.error "net down"
    notionCreate := fun _ _ _ => Except.error "net down" }

/-! ## Theorems -/

/-- C1: the spec claims missing-configuration errors are always surfaced as
HTTP 500 with a descriptive configuration error.  The code violates this for
the Notion actions: handleListPages runs notionEnvSchema.parse before
getNotionClient, which throws a ZodError, so POST maps the missing-config
failure to HTTP 400 with the zod issue rendering (the descriptive message in
getNotionClient is unreachable).  This theorem evaluates the route at the
failing input: a notion.listPages request with all Notion variables absent
yields status 400 (not 500) and an empty network trace. -/
theorem c1_notion_missing_env_gives_400 :
    POST (mkBody "notion.listPages" none) noNotionEnv idleWorld
      = ([], ⟨400, errBody (renderIssues
          [⟨["NOTION_API_KEY"], "Required"⟩,
           ⟨["NOTION_DATABASE_ID"], "Required"⟩,
           ⟨["NOTION_DATA_SOURCE_ID"], "Required"⟩])⟩) := by
  rfl

/-- C7: every successful notion.createPage invocation returns an object whose
pageId field holds the new page's identifier and whose url field is present,
being a string exactly when the external response exposes a url and null
otherwise. -/
theorem c7_createPage_shape
    (payload : Option Json) (env : Env) (w : World)
    (p : CreatePageParams) (nenv : NotionEnv) (resp : CreateResponse)
    (hp : parseCreatePagePayload payload = Except.ok p)
    (he : notionEnvParse env = Except.ok nenv)
    (hc : w.notionCreate nenv.databaseId p.title p.content = Except.ok resp) :
    ∃ out, (handleCreatePage payload env w).2 = Except.ok out ∧
      getField out "pageId" = some (Json.str resp.id) ∧
      getField out "url" = some (optStr resp.url) ∧
      ((∃ u, resp.url = some u ∧ optStr resp.url = Json.str u) ∨
       (resp.url = none ∧ optStr resp.url = Json.null)) := by
  refine ⟨Json.obj [("pageId", Json.str resp.id), ("url", optStr resp.url)], ?_, ?_, ?_, ?_⟩
  · simp [handleCreatePage, hp, he, hc]
  · simp [getField, lookupField]
  · simp [getField, lookupField]
  · cases h : resp.url with
    | some u => exact Or.inl ⟨u, rfl, by simp [optStr]⟩
    | none => exact Or.inr ⟨rfl, by simp [optStr]⟩

/-- C7 witness: the theorem applied to a concrete createPage request against
a concrete world. -/
theorem c7_createPage_shape_witness :
    ∃ out, (handleCreatePage
        (some (Json.obj [("title", Json.str "T"), ("content", Json.str "C")]))
        fullEnv okWorld).2 = Except.ok out ∧
      getField out "pageId" = some (Json.str "page-1") ∧
      getField out "url" = some (optStr (some "n.so/p1")) ∧
      ((∃ u, (some "n.so/p1" : Option String) = some u ∧ optStr (some "n.so/p1") = Json.str u) ∨
       ((some "n.so/p1" : Option String) = none ∧ optStr (some "n.so/p1") = Json.null)) :=
  c7_createPage_shape
    (some (Json.obj [("title", Json.str "T"), ("content", Json.str "C")]))
    fullEnv okWorld ⟨"T", "C"⟩ ⟨"nkey", "dbid", "dsid"⟩ ⟨"page-1", some "n.so/p1"⟩
    rfl rfl rfl

/-- C9: for a valid sendMessage payload the handler constructs the raw
message as exactly the To, Subject and Content-Type headers, a blank line and
the body, joined with CRLF, submits it in URL-safe base64 (plus mapped to
hyphen, slash to underscore, trailing padding stripped, per encodeRaw), and
returns the fixed acknowledgment regardless of the external response
content. -/
theorem c9_sendMessage_raw
    (payload : Option Json) (env : Env) (w : World)
    (p : SendMessageParams) (r : Json)
    (hp : parseSendMessagePayload payload = Except.ok p)
    (henv : gmailEnvOk env = true)
    (hs : w.gmailSend (encodeRaw (rawMessage p.toAddr p.subject p.body)) = Except.ok r) :
    handleSendMessage payload env w
      = ([Effect.gmailClientInit,
          Effect.gmailSend (encodeRaw (rawMessage p.toAddr p.subject p.body))],
         Except.ok (Json.obj [("status", Json.str "sent")])) ∧
    rawMessage p.toAddr p.subject p.body
      = "To: " ++ p.toAddr ++ "\r\n" ++ "Subject: " ++ p.subject ++ "\r\n"
        ++ "Content-Type: text/plain; charset=\"UTF-8\"" ++ "\r\n" ++ "\r\n" ++ p.body := by
  constructor
  · simp [handleSendMessage, hp, henv, hs]
  · rfl

/-- C9 witness: the theorem applied at a concrete payload; the submitted raw
string evaluates to the expected URL-safe base64 of the concrete message. -/
theorem c9_sendMessage_raw_witness :
    handleSendMessage
        (some (Json.obj [("to", Json.str "a@b.co"), ("subject", Json.str "Hi"),
                         ("body", Json.str "Yo")]))
        fullEnv okWorld
      = ([Effect.gmailClientInit,
          Effect.gmailSend "VG86IGFAYi5jbw0KU3ViamVjdDogSGkNCkNvbnRlbnQtVHlwZTogdGV4dC9wbGFpbjsgY2hhcnNldD0iVVRGLTgiDQoNCllv"],
         Except.ok (Json.obj [("status", Json.str "sent")])) := by
  have h := (c9_sendMessage_raw
    (some (Json.obj [("to", Json.str "a@b.co"), ("subject", Json.str "Hi"),
                     ("body", Json.str "Yo")]))
    fullEnv okWorld ⟨"a@b.co", "Hi", "Yo"⟩ Json.null rfl rfl rfl).1
  rw [h]
  rfl

/-- Auxiliary bridge between string inequality and the Bool isEmpty check. -/
theorem isEmpty_false_of_ne (s : String) (h : ¬(s = "")) : s.isEmpty = false := by
  cases hh : s.isEmpty
  · rfl
  · exact absurd ((String.isEmpty_iff s).mp hh) h

/-- C6: a sendMessage payload whose to field is a string that is not a
syntactically valid email address is rejected with a validation error, and
the effect trace is empty: no client construction and no network call is
attempted. -/
theorem c6_invalid_email_rejected
    (fields : List (String × Json)) (t : String) (env : Env) (w : World)
    (ht : lookupField fields "to" = some (Json.str t))
    (hv : isValidEmail t = false) :
    ∃ issues, handleSendMessage (some (Json.obj fields)) env w
      = ([], Except.error (AgentError.zodErr issues)) ∧
      ⟨["to"], "Invalid email"⟩ ∈ issues := by
  have hr1 : parseEmail (lookupField fields "to")
      = Except.error ⟨["to"], "Invalid email"⟩ := by
    rw [ht]; simp [parseEmail, hv]
  cases h2 : parseReqString (lookupField fields "subject") "subject" with
  | error i2 =>
    cases h3 : parseReqString (lookupField fields "body") "body" with
    | error i3 =>
      exact ⟨[⟨["to"], "Invalid email"⟩, i2, i3],
        by simp [handleSendMessage, parseSendMessagePayload, hr1, h2, h3, issuesOfStr],
        by simp⟩
    | ok b =>
      exact ⟨[⟨["to"], "Invalid email"⟩, i2],
        by simp [handleSendMessage, parseSendMessagePayload, hr1, h2, h3, issuesOfStr],
        by simp⟩
  | ok a =>
    cases h3 : parseReqString (lookupField fields "body") "body" with
    | error i3 =>
      exact ⟨[⟨["to"], "Invalid email"⟩, i3],
        by simp [handleSendMessage, parseSendMessagePayload, hr1, h2, h3, issuesOfStr],
        by simp⟩
    | ok b =>
      exact ⟨[⟨["to"], "Invalid email"⟩],
        by simp [handleSendMessage, parseSendMessagePayload, hr1, h2, h3, issuesOfStr],
        by simp⟩

/-- C6 witness: a concrete payload with an invalid address is rejected with
an empty trace. -/
theorem c6_invalid_email_rejected_witness :
    ∃ issues, handleSendMessage
        (some (Json.obj [("to", Json.str "notanemail"), ("subject", Json.str "Hi"),
                         ("body", Json.str "Yo")]))
        fullEnv okWorld
      = ([], Except.error (AgentError.zodErr issues)) ∧
      ⟨["to"], "Invalid email"⟩ ∈ issues :=
  c6_invalid_email_rejected
    [("to", Json.str "notanemail"), ("subject", Json.str "Hi"), ("body", Json.str "Yo")]
    "notanemail" fullEnv okWorld rfl rfl

/-- C8: a request whose action tag is not one of the four recognized tags is
rejected with the SAME 400 response whatever the payload (absent or any
record) and whatever the environment and world; and even for a non-record
payload value the request is still rejected with status 400 and an empty
effect trace. -/
theorem c8_unknown_action_uniform
    (a : String) (ha : tagOfString a = none) (env : Env) (w : World) :
    (∀ p : Option Json, (p = none ∨ ∃ fields, p = some (Json.obj fields)) →
       POST (mkBody a p) env w
         = ([], ⟨400, errBody (renderIssues [⟨["action"], "Invalid enum value"⟩])⟩)) ∧
    (∀ j : Json, (POST (mkBody a (some j)) env w).1 = [] ∧
       ((POST (mkBody a (some j)) env w).2).status = 400) := by
  constructor
  · rintro p (rfl | ⟨fields, rfl⟩) <;>
      simp [POST, parseRequest, mkBody, lookupField, ha]
  · intro j
    cases j <;> simp [POST, parseRequest, mkBody, lookupField, ha]

/-- C8 witness: a concrete unrecognized tag with no payload, a record
payload, and a non-record payload, in different environments and worlds. -/
theorem c8_unknown_action_uniform_witness :
    POST (mkBody "gmail.deleteMessage" none) fullEnv okWorld
      = ([], ⟨400, errBody (renderIssues [⟨["action"], "Invalid enum value"⟩])⟩) ∧
    POST (mkBody "gmail.deleteMessage" (some (Json.obj [("x", Json.num 1)]))) noNotionEnv idleWorld
      = ([], ⟨400, errBody (renderIssues [⟨["action"], "Invalid enum value"⟩])⟩) ∧
    (POST (mkBody "gmail.deleteMessage" (some (Json.num 7))) fullEnv okWorld).1 = [] ∧
    ((POST (mkBody "gmail.deleteMessage" (some (Json.num 7))) fullEnv okWorld).2).status = 400 :=
  ⟨(c8_unknown_action_uniform "gmail.deleteMessage" rfl fullEnv okWorld).1 none (Or.inl rfl),
   (c8_unknown_action_uniform "gmail.deleteMessage" rfl noNotionEnv idleWorld).1
     (some (Json.obj [("x", Json.num 1)])) (Or.inr ⟨[("x", Json.num 1)], rfl⟩),
   ((c8_unknown_action_uniform "gmail.deleteMessage" rfl fullEnv okWorld).2 (Json.num 7)).1,
   ((c8_unknown_action_uniform "gmail.deleteMessage" rfl fullEnv okWorld).2 (Json.num 7)).2⟩

/-- C10: when filterProperty is absent or the empty string, listPages
validation succeeds whatever the (string or absent) filterValue, and the
external query is issued with no filter: the stray filterValue is silently
ignored. -/
theorem c10_empty_filterProperty
    (fields : List (String × Json)) (env : Env) (w : World)
    (nenv : NotionEnv) (psv : Option Int)
    (he : notionEnvParse env = Except.ok nenv)
    (hps : parseMaxResults (lookupField fields "pageSize") "pageSize" = Except.ok psv)
    (hfp : lookupField fields "filterProperty" = none ∨
           lookupField fields "filterProperty" = some (Json.str ""))
    (hfv : lookupField fields "filterValue" = none ∨
           ∃ s, lookupField fields "filterValue" = some (Json.str s)) :
    ∃ params : ListPagesParams,
      parseListPagesPayload (some (Json.obj fields)) = Except.ok params ∧
      (handleListPages (some (Json.obj fields)) env w).1
        = [Effect.notionClientInit,
           Effect.notionQuery nenv.dataSourceId (psv.getD 10) none] := by
  have hemp : ("" : String).isEmpty = true := rfl
  rcases hfp with h2 | h2 <;> rcases hfv with h3 | ⟨s, h3⟩
  · refine ⟨⟨psv, none, none⟩, ?_, ?_⟩
    · simp [parseListPagesPayload, hps, h2, h3, parseOptString, truthy]
    · have hparse : parseListPagesPayload (some (Json.obj fields))
          = Except.ok ⟨psv, none, none⟩ := by
        simp [parseListPagesPayload, hps, h2, h3, parseOptString, truthy]
      cases hw : w.notionQuery nenv.dataSourceId (psv.getD 10) none <;>
        simp [handleListPages, hparse, he, hw, hemp]
  · refine ⟨⟨psv, none, some s⟩, ?_, ?_⟩
    · simp [parseListPagesPayload, hps, h2, h3, parseOptString, truthy]
    · have hparse : parseListPagesPayload (some (Json.obj fields))
          = Except.ok ⟨psv, none, some s⟩ := by
        simp [parseListPagesPayload, hps, h2, h3, parseOptString, truthy]
      cases hw : w.notionQuery nenv.dataSourceId (psv.getD 10) none <;>
        simp [handleListPages, hparse, he, hw, hemp]
  · refine ⟨⟨psv, some "", none⟩, ?_, ?_⟩
    · simp [parseListPagesPayload, hps, h2, h3, parseOptString, truthy, hemp]
    · have hparse : parseListPagesPayload (some (Json.obj fields))
          = Except.ok ⟨psv, some "", none⟩ := by
        simp [parseListPagesPayload, hps, h2, h3, parseOptString, truthy, hemp]
      cases hw : w.notionQuery nenv.dataSourceId (psv.getD 10) none <;>
        simp [handleListPages, hparse, he, hw, hemp]
  · refine ⟨⟨psv, some "", some s⟩, ?_, ?_⟩
    · simp [parseListPagesPayload, hps, h2, h3, parseOptString, truthy, hemp]
    · have hparse : parseListPagesPayload (some (Json.obj fields))
          = Except.ok ⟨psv, some "", some s⟩ := by
        simp [parseListPagesPayload, hps, h2, h3, parseOptString, truthy, hemp]
      cases hw : w.notionQuery nenv.dataSourceId (psv.getD 10) none <;>
        simp [handleListPages, hparse, he, hw, hemp]

/-- C10 witness: a stray filterValue without filterProperty validates and the
query carries no filter. -/
theorem c10_empty_filterProperty_witness :
    ∃ params : ListPagesParams,
      parseListPagesPayload (some (Json.obj [("filterValue", Json.str "x")]))
        = Except.ok params ∧
      (handleListPages (some (Json.obj [("filterValue", Json.str "x")])) fullEnv okWorld).1
        = [Effect.notionClientInit, Effect.notionQuery "dsid" 10 none] :=
  c10_empty_filterProperty [("filterValue", Json.str "x")] fullEnv okWorld
    ⟨"nkey", "dbid", "dsid"⟩ none rfl rfl (Or.inl rfl) (Or.inr ⟨"x", rfl⟩)

/-- C3: a listPages payload with a (non-empty) filterProperty and no
filterValue is rejected by validation with an empty trace; with both set and
non-empty, the external query carries a contains filter of the value on that
property. -/
theorem c3_listPages_filter :
    (∀ (fields : List (String × Json)) (env : Env) (w : World) (p : String),
       lookupField fields "filterProperty" = some (Json.str p) → ¬(p = "") →
       lookupField fields "filterValue" = none →
       ∃ issues, handleListPages (some (Json.obj fields)) env w
         = ([], Except.error (AgentError.zodErr issues))) ∧
    (∀ (fields : List (String × Json)) (env : Env) (w : World) (nenv : NotionEnv)
       (ps : Option Int) (p v : String),
       notionEnvParse env = Except.ok nenv →
       parseListPagesPayload (some (Json.obj fields)) = Except.ok ⟨ps, some p, some v⟩ →
       ¬(p = "") → ¬(v = "") →
       (handleListPages (some (Json.obj fields)) env w).1
         = [Effect.notionClientInit,
            Effect.notionQuery nenv.dataSourceId (ps.getD 10) (some ⟨p, v⟩)]) := by
  constructor
  · intro fields env w p h2 hne h3
    have hpe : p.isEmpty = false := isEmpty_false_of_ne p hne
    cases h1 : parseMaxResults (lookupField fields "pageSize") "pageSize" with
    | error i1 =>
      exact ⟨[i1], by
        simp [handleListPages, parseListPagesPayload, h1, h2, h3, parseOptString,
          truthy, hpe, issuesOfOptInt, issuesOfOptStr]⟩
    | ok a =>
      exact ⟨[⟨["filterValue"], "filterValue must be provided when filterProperty is set."⟩], by
        simp [handleListPages, parseListPagesPayload, h1, h2, h3, parseOptString,
          truthy, hpe]⟩
  · intro fields env w nenv ps p v he hparse hpne hvne
    have hpe : p.isEmpty = false := isEmpty_false_of_ne p hpne
    have hve : v.isEmpty = false := isEmpty_false_of_ne v hvne
    cases hw : w.notionQuery nenv.dataSourceId (ps.getD 10) (some ⟨p, v⟩) <;>
      simp [handleListPages, hparse, he, hpe, hve, hw]

/-- C3 witness: the two halves of the theorem at concrete payloads. -/
theorem c3_listPages_filter_witness :
    (∃ issues, handleListPages (some (Json.obj [("filterProperty", Json.str "Tag")]))
        fullEnv okWorld = ([], Except.error (AgentError.zodErr issues))) ∧
    (handleListPages
        (some (Json.obj [("filterProperty", Json.str "Tag"), ("filterValue", Json.str "x")]))
        fullEnv okWorld).1
      = [Effect.notionClientInit, Effect.notionQuery "dsid" 10 (some ⟨"Tag", "x"⟩)] := by
  constructor
  · exact c3_listPages_filter.1 [("filterProperty", Json.str "Tag")] fullEnv okWorld
      "Tag" rfl (by decide) rfl
  · exact c3_listPages_filter.2
      [("filterProperty", Json.str "Tag"), ("filterValue", Json.str "x")]
      fullEnv okWorld ⟨"nkey", "dbid", "dsid"⟩ none "Tag" "x" rfl rfl
      (by decide) (by decide)

theorem mentions_append_left (n a b : String) (h : mentions n a) : mentions n (a ++ b) := by
  obtain ⟨l, r, hd⟩ := h
  exact ⟨l, r ++ b.data, by rw [String.data_append, hd]; simp⟩

theorem mentions_append_right (n a b : String) (h : mentions n b) : mentions n (a ++ b) := by
  obtain ⟨l, r, hd⟩ := h
  exact ⟨a.data ++ l, r, by rw [String.data_append, hd]; simp⟩

theorem mentions_self (s : String) : mentions s s :=
  ⟨[], [], by simp⟩

/-- An issue whose path is the single field f renders to a string in which f
occurs. -/
theorem mentions_renderIssue (i : ZodIssue) (f : String) (h : i.path = [f]) :
    mentions f (renderIssue i) := by
  unfold renderIssue
  rw [h]
  show mentions f (f ++ ": " ++ i.message)
  exact mentions_append_left _ _ _ (mentions_append_left _ _ _ (mentions_self f))

/-- The rendered message of an issue list contains the field name of every
single-field issue in the list. -/
theorem mentions_renderIssues (issues : List ZodIssue) (i : ZodIssue) (hmem : i ∈ issues)
    (f : String) (hp : i.path = [f]) : mentions f (renderIssues issues) := by
  induction issues with
  | nil => cases hmem
  | cons j rest ih =>
    cases rest with
    | nil =>
      have hij : i = j := by simpa using hmem
      subst hij
      exact mentions_renderIssue i f hp
    | cons k rest' =>
      rcases List.mem_cons.mp hmem with hij | hmem'
      · subst hij
        show mentions f (renderIssue i ++ "; " ++ renderIssues (k :: rest'))
        exact mentions_append_left _ _ _
          (mentions_append_left _ _ _ (mentions_renderIssue i f hp))
      · show mentions f (renderIssue j ++ "; " ++ renderIssues (k :: rest'))
        exact mentions_append_right _ _ _ (ih hmem')

/-- requestSchema accepts a body with a recognized action string and an
object payload, and forwards the payload unchanged. -/
theorem parseRequest_mkBody_obj (a : String) (t : ActionTag) (ht : tagOfString a = some t)
    (fields : List (String × Json)) :
    parseRequest (mkBody a (some (Json.obj fields))) = Except.ok ⟨t, some (Json.obj fields)⟩ := by
  simp [parseRequest, mkBody, lookupField, ht]

/-- Lifting a handler-level zod rejection through POST: status 400 and a
message identifying the field. -/
theorem identifiesField_of_run (a : String) (t : ActionTag) (ht : tagOfString a = some t)
    (fields : List (String × Json)) (env : Env) (w : World)
    (issues : List ZodIssue) (i : ZodIssue) (f : String)
    (hrun : runAction t (some (Json.obj fields)) env w
      = ([], Except.error (AgentError.zodErr issues)))
    (hmem : i ∈ issues) (hpath : i.path = [f]) :
    identifiesField (POST (mkBody a (some (Json.obj fields))) env w).2 f := by
  have hreq := parseRequest_mkBody_obj a t ht fields
  refine ⟨?_, issues, ?_, ⟨i, hmem, hpath⟩, mentions_renderIssues issues i hmem f hpath⟩
  · simp [POST, hreq, hrun]
  · simp [POST, hreq, hrun]

/-- A sendMessage payload with no to entry is rejected with an issue at
path to. -/
theorem sm_issues_to (fields : List (String × Json))
    (h : lookupField fields "to" = none) :
    ∃ issues, parseSendMessagePayload (some (Json.obj fields)) = Except.error issues ∧
      ⟨["to"], "Required"⟩ ∈ issues := by
  have hr1 : parseEmail (lookupField fields "to") = Except.error ⟨["to"], "Required"⟩ := by
    rw [h]; rfl
  refine ⟨issuesOfStr (parseEmail (lookupField fields "to"))
    ++ issuesOfStr (parseReqString (lookupField fields "subject") "subject")
    ++ issuesOfStr (parseReqString (lookupField fields "body") "body"), ?_, ?_⟩
  · cases h2 : parseReqString (lookupField fields "subject") "subject" <;>
    cases h3 : parseReqString (lookupField fields "body") "body" <;>
      simp [parseSendMessagePayload, hr1, h2, h3]
  · simp [hr1, issuesOfStr]

theorem sm_issues_subject (fields : List (String × Json))
    (h : lookupField fields "subject" = none) :
    ∃ issues, parseSendMessagePayload (some (Json.obj fields)) = Except.error issues ∧
      ⟨["subject"], "Required"⟩ ∈ issues := by
  have hr2 : parseReqString (lookupField fields "subject") "subject"
      = Except.error ⟨["subject"], "Required"⟩ := by
    rw [h]; rfl
  refine ⟨issuesOfStr (parseEmail (lookupField fields "to"))
    ++ issuesOfStr (parseReqString (lookupField fields "subject") "subject")
    ++ issuesOfStr (parseReqString (lookupField fields "body") "body"), ?_, ?_⟩
  · cases h1 : parseEmail (lookupField fields "to") <;>
    cases h3 : parseReqString (lookupField fields "body") "body" <;>
      simp [parseSendMessagePayload, hr2, h1, h3]
  · simp [hr2, issuesOfStr]

theorem sm_issues_body (fields : List (String × Json))
    (h : lookupField fields "body" = none) :
    ∃ issues, parseSendMessagePayload (some (Json.obj fields)) = Except.error issues ∧
      ⟨["body"], "Required"⟩ ∈ issues := by
  have hr3 : parseReqString (lookupField fields "body") "body"
      = Except.error ⟨["body"], "Required"⟩ := by
    rw [h]; rfl
  refine ⟨issuesOfStr (parseEmail (lookupField fields "to"))
    ++ issuesOfStr (parseReqString (lookupField fields "subject") "subject")
    ++ issuesOfStr (parseReqString (lookupField fields "body") "body"), ?_, ?_⟩
  · cases h1 : parseEmail (lookupField fields "to") <;>
    cases h2 : parseReqString (lookupField fields "subject") "subject" <;>
      simp [parseSendMessagePayload, hr3, h1, h2]
  · simp [hr3, issuesOfStr]

theorem cp_issues_title (fields : List (String × Json))
    (h : lookupField fields "title" = none) :
    ∃ issues, parseCreatePagePayload (some (Json.obj fields)) = Except.error issues ∧
      ⟨["title"], "Required"⟩ ∈ issues := by
  have hr1 : parseReqString (lookupField fields "title") "title"
      = Except.error ⟨["title"], "Required"⟩ := by
    rw [h]; rfl
  refine ⟨issuesOfStr (parseReqString (lookupField fields "title") "title")
    ++ issuesOfStr (parseReqString (lookupField fields "content") "content"), ?_, ?_⟩
  · cases h2 : parseReqString (lookupField fields "content") "content" <;>
      simp [parseCreatePagePayload, hr1, h2]
  · simp [hr1, issuesOfStr]

theorem cp_issues_content (fields : List (String × Json))
    (h : lookupField fields "content" = none) :
    ∃ issues, parseCreatePagePayload (some (Json.obj fields)) = Except.error issues ∧
      ⟨["content"], "Required"⟩ ∈ issues := by
  have hr2 : parseReqString (lookupField fields "content") "content"
      = Except.error ⟨["content"], "Required"⟩ := by
    rw [h]; rfl
  refine ⟨issuesOfStr (parseReqString (lookupField fields "title") "title")
    ++ issuesOfStr (parseReqString (lookupField fields "content") "content"), ?_, ?_⟩
  · cases h1 : parseReqString (lookupField fields "title") "title" <;>
      simp [parseCreatePagePayload, hr2, h1]
  · simp [hr2, issuesOfStr]

/-- C5: for each action with required fields (gmail.sendMessage with
to/subject/body, notion.createPage with title/content), a payload object
missing one of them yields a 400 response whose error message identifies the
offending field. -/
theorem c5_missing_field_identified
    (fields : List (String × Json)) (env : Env) (w : World) :
    (lookupField fields "to" = none →
      identifiesField (POST (mkBody "gmail.sendMessage" (some (Json.obj fields))) env w).2 "to") ∧
    (lookupField fields "subject" = none →
      identifiesField (POST (mkBody "gmail.sendMessage" (some (Json.obj fields))) env w).2 "subject") ∧
    (lookupField fields "body" = none →
      identifiesField (POST (mkBody "gmail.sendMessage" (some (Json.obj fields))) env w).2 "body") ∧
    (lookupField fields "title" = none →
      identifiesField (POST (mkBody "notion.createPage" (some (Json.obj fields))) env w).2 "title") ∧
    (lookupField fields "content" = none →
      identifiesField (POST (mkBody "notion.createPage" (some (Json.obj fields))) env w).2 "content") := by
  refine ⟨fun h => ?_, fun h => ?_, fun h => ?_, fun h => ?_, fun h => ?_⟩
  · obtain ⟨issues, hparse, hmem⟩ := sm_issues_to fields h
    exact identifiesField_of_run "gmail.sendMessage" ActionTag.gmailSendMessage rfl
      fields env w issues _ "to"
      (by simp [runAction, handleSendMessage, hparse]) hmem rfl
  · obtain ⟨issues, hparse, hmem⟩ := sm_issues_subject fields h
    exact identifiesField_of_run "gmail.sendMessage" ActionTag.gmailSendMessage rfl
      fields env w issues _ "subject"
      (by simp [runAction, handleSendMessage, hparse]) hmem rfl
  · obtain ⟨issues, hparse, hmem⟩ := sm_issues_body fields h
    exact identifiesField_of_run "gmail.sendMessage" ActionTag.gmailSendMessage rfl
      fields env w issues _ "body"
      (by simp [runAction, handleSendMessage, hparse]) hmem rfl
  · obtain ⟨issues, hparse, hmem⟩ := cp_issues_title fields h
    exact identifiesField_of_run "notion.createPage" ActionTag.notionCreatePage rfl
      fields env w issues _ "title"
      (by simp [runAction, handleCreatePage, hparse]) hmem rfl
  · obtain ⟨issues, hparse, hmem⟩ := cp_issues_content fields h
    exact identifiesField_of_run "notion.createPage" ActionTag.notionCreatePage rfl
      fields env w issues _ "content"
      (by simp [runAction, handleCreatePage, hparse]) hmem rfl

/-- C5 witness: the empty payload object is missing every required field;
each of the five rejections identifies its field. -/
theorem c5_missing_field_identified_witness :
    identifiesField (POST (mkBody "gmail.sendMessage" (some (Json.obj []))) fullEnv okWorld).2 "to" ∧
    identifiesField (POST (mkBody "gmail.sendMessage" (some (Json.obj []))) fullEnv okWorld).2 "subject" ∧
    identifiesField (POST (mkBody "gmail.sendMessage" (some (Json.obj []))) fullEnv okWorld).2 "body" ∧
    identifiesField (POST (mkBody "notion.createPage" (some (Json.obj []))) fullEnv okWorld).2 "title" ∧
    identifiesField (POST (mkBody "notion.createPage" (some (Json.obj []))) fullEnv okWorld).2 "content" := by
  have h := c5_missing_field_identified [] fullEnv okWorld
  exact ⟨h.1 rfl, h.2.1 rfl, h.2.2.1 rfl, h.2.2.2.1 rfl, h.2.2.2.2 rfl⟩

/-- The size-parameter schema accepts exactly the integral rationals in
[1, 20]. -/
theorem parseMaxResults_ok_iff (v : Json) (key : String) :
    (∃ r, parseMaxResults (some v) key = Except.ok r) ↔
    (∃ q : Rat, v = Json.num q ∧ q.den = 1 ∧ 1 ≤ q.num ∧ q.num ≤ 20) := by
  constructor
  · rintro ⟨r, hr⟩
    cases v with
    | num q =>
      by_cases h1 : q.den = 1
      · by_cases h2 : 0 < q.num
        · by_cases h3 : q.num ≤ 20
          · exact ⟨q, rfl, h1, by omega, h3⟩
          · simp [parseMaxResults, h1, h2, h3] at hr
        · simp [parseMaxResults, h1, h2] at hr
      · simp [parseMaxResults, h1] at hr
    | null => simp [parseMaxResults] at hr
    | bool b => simp [parseMaxResults] at hr
    | str s => simp [parseMaxResults] at hr
    | arr items => simp [parseMaxResults] at hr
    | obj fields => simp [parseMaxResults] at hr
  · rintro ⟨q, rfl, h1, h2, h3⟩
    have h2' : 0 < q.num := by omega
    exact ⟨some q.num, by simp [parseMaxResults, h1, h2', h3]⟩

/-- C4: for gmail.listMessages (maxResults) and notion.listPages (pageSize),
the size parameter is accepted exactly when it is an integer between 1 and 20
inclusive; in particular 21 is rejected; and when the parameter is omitted
the external call is issued with size 10. -/
theorem c4_size_bounds :
    (∀ v : Json,
      ((∃ p, parseListMessagesPayload (some (Json.obj [("maxResults", v)])) = Except.ok p) ↔
       (∃ q : Rat, v = Json.num q ∧ q.den = 1 ∧ 1 ≤ q.num ∧ q.num ≤ 20)) ∧
      ((∃ p, parseListPagesPayload (some (Json.obj [("pageSize", v)])) = Except.ok p) ↔
       (∃ q : Rat, v = Json.num q ∧ q.den = 1 ∧ 1 ≤ q.num ∧ q.num ≤ 20))) ∧
    (∀ p, parseListMessagesPayload (some (Json.obj [("maxResults", Json.num 21)]))
       ≠ Except.ok p) ∧
    (∀ p, parseListPagesPayload (some (Json.obj [("pageSize", Json.num 21)]))
       ≠ Except.ok p) ∧
    (∀ (env : Env) (w : World), gmailEnvOk env = true →
       Effect.gmailList 10 none none ∈ (handleListMessages none env w).1) ∧
    (∀ (env : Env) (w : World) (nenv : NotionEnv), notionEnvParse env = Except.ok nenv →
       Effect.notionQuery nenv.dataSourceId 10 none ∈ (handleListPages none env w).1) := by
  have hlm : ∀ v : Json,
      (∃ p, parseListMessagesPayload (some (Json.obj [("maxResults", v)])) = Except.ok p) ↔
      (∃ r, parseMaxResults (some v) "maxResults" = Except.ok r) := by
    intro v
    constructor
    · rintro ⟨p, hp⟩
      cases h1 : parseMaxResults (some v) "maxResults" with
      | error i => simp [parseListMessagesPayload, lookupField, h1] at hp
      | ok r => exact ⟨r, rfl⟩
    · rintro ⟨r, hr⟩
      exact ⟨⟨r, none, none⟩, by simp [parseListMessagesPayload, lookupField, hr,
        parseLabelIds, parseOptBool]⟩
  have hlp : ∀ v : Json,
      (∃ p, parseListPagesPayload (some (Json.obj [("pageSize", v)])) = Except.ok p) ↔
      (∃ r, parseMaxResults (some v) "pageSize" = Except.ok r) := by
    intro v
    constructor
    · rintro ⟨p, hp⟩
      cases h1 : parseMaxResults (some v) "pageSize" with
      | error i => simp [parseListPagesPayload, lookupField, h1] at hp
      | ok r => exact ⟨r, rfl⟩
    · rintro ⟨r, hr⟩
      exact ⟨⟨r, none, none⟩, by simp [parseListPagesPayload, lookupField, hr,
        parseOptString, truthy]⟩
  refine ⟨fun v => ⟨(hlm v).trans (parseMaxResults_ok_iff v "maxResults"),
                    (hlp v).trans (parseMaxResults_ok_iff v "pageSize")⟩, ?_, ?_, ?_, ?_⟩
  · intro p hp
    have h21 : ¬∃ q : Rat, (Json.num 21 : Json) = Json.num q ∧ q.den = 1 ∧ 1 ≤ q.num ∧ q.num ≤ 20 := by
      rintro ⟨q, hq, hd, h1, h2⟩
      cases hq
      revert h2
      decide
    exact h21 (((hlm (Json.num 21)).trans (parseMaxResults_ok_iff _ _)).mp ⟨p, hp⟩)
  · intro p hp
    have h21 : ¬∃ q : Rat, (Json.num 21 : Json) = Json.num q ∧ q.den = 1 ∧ 1 ≤ q.num ∧ q.num ≤ 20 := by
      rintro ⟨q, hq, hd, h1, h2⟩
      cases hq
      revert h2
      decide
    exact h21 (((hlp (Json.num 21)).trans (parseMaxResults_ok_iff _ _)).mp ⟨p, hp⟩)
  · intro env w henv
    have hparse : parseListMessagesPayload none = Except.ok ⟨none, none, none⟩ := rfl
    cases hw : w.gmailList 10 none none with
    | error m => simp [handleListMessages, hparse, henv, hw]
    | ok resp =>
      cases hj : joinResults ((resp.getD []).map (fetchResult w)) <;>
        simp [handleListMessages, hparse, henv, hw, hj]
  · intro env w nenv he
    have hparse : parseListPagesPayload none = Except.ok ⟨none, none, none⟩ := rfl
    cases hw : w.notionQuery nenv.dataSourceId 10 none <;>
      simp [handleListPages, hparse, he, hw]

/-- C4 witness: 20 accepted, 21 rejected, and with the parameter omitted the
issued calls carry 10, at concrete inputs. -/
theorem c4_size_bounds_witness :
    (∃ p, parseListMessagesPayload (some (Json.obj [("maxResults", Json.num 20)]))
       = Except.ok p) ∧
    (∀ p, parseListMessagesPayload (some (Json.obj [("maxResults", Json.num 21)]))
       ≠ Except.ok p) ∧
    Effect.gmailList 10 none none ∈ (handleListMessages none fullEnv okWorld).1 ∧
    Effect.notionQuery "dsid" 10 none ∈ (handleListPages none fullEnv okWorld).1 := by
  refine ⟨?_, c4_size_bounds.2.1, ?_, ?_⟩
  · exact ((c4_size_bounds.1 (Json.num 20)).1).mpr ⟨20, rfl, by decide, by decide, by decide⟩
  · exact c4_size_bounds.2.2.2.1 fullEnv okWorld rfl
  · exact c4_size_bounds.2.2.2.2 fullEnv okWorld ⟨"nkey", "dbid", "dsid"⟩ rfl

/-- The fan-out/fan-in over the listing: when every detail fetch for a
message with an id succeeds, the joined result is exactly the positional
filter-map of the listing. -/
theorem joinResults_ok (w : World) (detail : String → MsgDetail) (msgs : List MsgRef)
    (hg : ∀ m ∈ msgs, ∀ i, m.id = some i → w.gmailGet i = Except.ok (detail i)) :
    joinResults (msgs.map (fetchResult w))
      = Except.ok (msgs.filterMap
          (fun m => m.id.map (fun i => detailJson i m.threadId (detail i)))) := by
  revert hg
  induction msgs with
  | nil => intro _; rfl
  | cons m rest ih =>
    intro hg
    have hrest := ih (fun m' hm' i hi => hg m' (List.mem_cons_of_mem m hm') i hi)
    cases hid : m.id with
    | none => simp [joinResults, fetchResult, hid, hrest]
    | some i =>
      have hw := hg m (List.mem_cons_self m rest) i hid
      simp [joinResults, fetchResult, hid, hw, hrest]

/-- C2: with a successful listing and successful detail fetches, listMessages
returns exactly the messages that have an identifier, positionally in the
listing order, and (when the external service honors the requested cap) the
output length is at most the requested maxResults. -/
theorem c2_listMessages_order
    (payload : Option Json) (env : Env) (w : World)
    (params : ListMessagesParams) (msgs : List MsgRef) (detail : String → MsgDetail)
    (hp : parseListMessagesPayload payload = Except.ok params)
    (henv : gmailEnvOk env = true)
    (hl : w.gmailList (params.maxResults.getD 10) params.labelIds params.includeSpamTrash
       = Except.ok (some msgs))
    (hg : ∀ m ∈ msgs, ∀ i, m.id = some i → w.gmailGet i = Except.ok (detail i))
    (hcap : msgs.length ≤ (params.maxResults.getD 10).toNat) :
    ∃ out : List Json,
      (handleListMessages payload env w).2
        = Except.ok (Json.obj [("messages", Json.arr out)]) ∧
      out = msgs.filterMap
        (fun m => m.id.map (fun i => detailJson i m.threadId (detail i))) ∧
      out.length ≤ (params.maxResults.getD 10).toNat := by
  have hjoin := joinResults_ok w detail msgs hg
  refine ⟨msgs.filterMap (fun m => m.id.map (fun i => detailJson i m.threadId (detail i))),
    ?_, rfl, ?_⟩
  · simp [handleListMessages, hp, henv, hl, hjoin]
  · exact le_trans (List.length_filterMap_le _ _) hcap

/-- C2 witness: a three-message listing in which the second message has no
identifier yields exactly the first and third details, in order. -/
theorem c2_listMessages_order_witness :
    ∃ out : List Json,
      (handleListMessages none fullEnv okWorld).2
        = Except.ok (Json.obj [("messages", Json.arr out)]) ∧
      out = [msgA, msgB, msgC].filterMap
        (fun m => m.id.map (fun i => detailJson i m.threadId (detailOf i))) ∧
      out.length ≤ ((none : Option Int).getD 10).toNat :=
  c2_listMessages_order none fullEnv okWorld ⟨none, none, none⟩ [msgA, msgB, msgC] detailOf
    rfl rfl rfl (fun _ _ _ _ => rfl) (by decide)

end Agent
